import Mathlib

/-!
Verification of the request-handling shim in `src/main.py` (a single-endpoint
FastAPI backend: environment/configuration check at module load, a ChromaDB
retrieval wrapper, a Perplexity chat-completion wrapper, and the `/api/query`
handler).

The embedding is shallow: the two remote services are modelled as explicit
function parameters (an `Oracle`), exceptions become `Except String`, and the
handler additionally returns a `Trace` recording the arguments of every call
it makes to the retrieval wrapper and the generation wrapper, so that claims
about "the client is invoked exactly once with ..." become statements about
the trace.
-/

/-- The document separator used by `query_chroma_collection`
(`"\n\n---\n\n".join(docs)` in `src/main.py`, line 61). -/
def SEP : String := "\n\n---\n\n"

/-- Result of `knowledge_collection.query(...)` as `src/main.py` consumes it:
a dict that may or may not carry a `"documents"` key; when present, the value
is one list of document texts per query in the batch
(`results.get("documents", [[]])`, line 60). -/
structure ChromaResult where
  documents : Option (List (List String))
deriving Repr, DecidableEq

/-- Python `list[0]`: the first element, or an `IndexError` on an empty list
(line 60 indexes the per-query document lists with `[0]`). -/
def index0 (l : List (List String)) : Except String (List String) :=
  match l with
  | [] => Except.error "IndexError: list index out of range"
  | d :: _ => Except.ok d

/-- One `requests.post` response as `call_perplexity_api` consumes it:
its status code, its raw body text, and (for the 200 path) the parsed
`data["choices"][0]["message"]["content"]` field (lines 106-111). -/
structure HttpResponse where
  status_code : Nat
  text : String
  content : String
deriving Repr, DecidableEq

/-- The two remote collaborators of `src/main.py`, as pure oracles:
`collQuery` is the behavior of `knowledge_collection.query` (it may raise),
`post` is the behavior of `requests.post` on the chat-completions endpoint
(it receives the constructed prompt and may raise, e.g. a network failure). -/
structure Oracle where
  collQuery : String → Int → Except String ChromaResult
  post : String → Except String HttpResponse

/-- `query_chroma_collection(query, n_results)` of `src/main.py`, lines 55-62:
query the collection, take the first query's documents (defaulting the
missing-key case to `[[]]`), and join them with `SEP`; empty list gives `""`. -/
def query_chroma_collection (collQuery : String → Int → Except String ChromaResult)
    (query : String) (n_results : Int) : Except String String :=
  match collQuery query n_results with
  | Except.error e => Except.error e
  | Except.ok results =>
    match index0 (results.documents.getD [[]]) with
    | Except.error e => Except.error e
    | Except.ok docs =>
        Except.ok (if docs.isEmpty then "" else String.intercalate SEP docs)

/-- The prompt `call_perplexity_api` builds (the f-string of lines 73-93),
with `context` and `query` interpolated. -/
def mkPrompt (query : String) (context : String) : String :=
  "\nYou are an expert IIT JEE Physics tutor that answers questions with detailed explanations. Using the following context, answer the user\x27s question.\n\nContext:<br><br>\n"
  ++ context
  ++ "<br><br>\n\nUser Question:<br><br>\n"
  ++ query
  ++ "<br><br>\n\nProvide a clear, structured, and detailed step-by-step explanation in your answer using HTML tags such as:<br>\n<ul>\n  <li><b>&lt;p&gt;</b> for paragraphs</li>\n  <li><b>&lt;b&gt;</b> or <b>&lt;strong&gt;</b> for bold text</li>\n  <li><b>&lt;i&gt;</b> or <b>&lt;em&gt;</b> for emphasis</li>\n  <li><b>&lt;ul&gt;</b> and <b>&lt;li&gt;</b> for lists</li>\n  <li><b>&lt;h3&gt;</b>, <b>&lt;h4&gt;</b> for headings</li>\n</ul>\nDo NOT use markdown syntax like **bold** or --- lines.<br><br>\n\nPlease provide the entire answer in valid HTML.\n"

/-- `call_perplexity_api(query, context)` of `src/main.py`, lines 64-111:
post the constructed prompt; on status 200 return the first choice's message
content, otherwise raise `"Perplexity API error: <status> <body>"`. -/
def call_perplexity_api (post : String → Except String HttpResponse)
    (query : String) (context : String) : Except String String :=
  match post (mkPrompt query context) with
  | Except.error e => Except.error e
  | Except.ok response =>
    if response.status_code == 200 then
      Except.ok response.content
    else
      Except.error
        ("Perplexity API error: " ++ toString response.status_code ++ " " ++ response.text)

/-- The pydantic model `QueryRequest` (lines 47-49): a query string and an
integer `n_results` whose declared type is plain `int` with default `3`. -/
structure QueryRequest where
  query : String
  n_results : Int
deriving Repr, DecidableEq

/-- The pydantic model `QueryResponse` (lines 51-53). -/
structure QueryResponse where
  thinking : String
  answer : String
deriving Repr, DecidableEq

/-- An inbound JSON payload restricted to the two declared fields, each
present or absent. (Payloads whose fields hold values of the wrong JSON type
are rejected by pydantic before the handler runs and are not modelled.) -/
structure RawPayload where
  query : Option String
  n_results : Option Int
deriving Repr, DecidableEq

/-- Pydantic validation of `QueryRequest` (lines 47-49): `query` is required,
`n_results` defaults to `3` when omitted; no further constraint is declared,
so any integer (including zero and negative values) is accepted. -/
def parseQueryRequest (p : RawPayload) : Except String QueryRequest :=
  match p.query with
  | none => Except.error "validation error: query field required"
  | some q => Except.ok ⟨q, p.n_results.getD 3⟩

/-- Python `str.strip()` as the handler applies it (line 118): drop leading
and trailing whitespace characters from both ends of the string.  (Defined
by structural recursion over the character list so that it evaluates inside
proofs; it agrees with `String.trim` on the ASCII whitespace the knowledge
base and the claims involve.) -/
def strip (s : String) : String :=
  ⟨((s.data.dropWhile Char.isWhitespace).reverse.dropWhile Char.isWhitespace).reverse⟩

/-- What the handler sends back: `ok` is a normal HTTP 200 body (FastAPI
serializes the returned `QueryResponse`), `httpError` is a raised
`HTTPException(status_code, detail)`. -/
inductive HandlerOutcome where
  | ok (resp : QueryResponse)
  | httpError (status : Nat) (detail : String)
deriving Repr, DecidableEq

/-- The calls the handler makes to its two wrappers, in order: the arguments
of each `query_chroma_collection(request.query, request.n_results)` call and
of each `call_perplexity_api(request.query, context)` call. -/
structure Trace where
  retrievalCalls : List (String × Int)
  generationCalls : List (String × String)
deriving Repr, DecidableEq

/-- The `/api/query` handler `query_jee` of `src/main.py`, lines 113-129,
instrumented with a `Trace`.  Inside a try block it retrieves context; if
`context.strip()` is falsy it returns the canned no-information response
(HTTP 200); otherwise it calls the generation wrapper and returns its text.
Any exception from either wrapper is caught by the `except` clause and
re-raised as `HTTPException(500, f"Internal server error: <e>")`; the
handler itself never propagates the raw exception. -/
def query_jee (oracle : Oracle) (request : QueryRequest) : HandlerOutcome × Trace :=
  match query_chroma_collection oracle.collQuery request.query request.n_results with
  | Except.error e =>
      (HandlerOutcome.httpError 500 ("Internal server error: " ++ e),
       ⟨[(request.query, request.n_results)], []⟩)
  | Except.ok context =>
      if (strip context).isEmpty then
        (HandlerOutcome.ok
           ⟨"", "Sorry, no relevant information found in the knowledge base for your query."⟩,
         ⟨[(request.query, request.n_results)], []⟩)
      else
        match call_perplexity_api oracle.post request.query context with
        | Except.error e =>
            (HandlerOutcome.httpError 500 ("Internal server error: " ++ e),
             ⟨[(request.query, request.n_results)], [(request.query, context)]⟩)
        | Except.ok response_text =>
            (HandlerOutcome.ok ⟨"", response_text⟩,
             ⟨[(request.query, request.n_results)], [(request.query, context)]⟩)

/-- The environment values read at module load (lines 25-27): `os.getenv`
yields `none` when the variable is absent. -/
structure Env where
  perplexity_api_key : Option String
  chroma_cloud_api_key : Option String
  chroma_cloud_tenant : Option String
deriving Repr, DecidableEq

/-- Python truthiness of an `os.getenv` result: `None` and the empty string
are falsy. -/
def truthy (o : Option String) : Bool :=
  match o with
  | none => false
  | some s => !s.isEmpty

/-- Module initialization of `src/main.py`, lines 25-45: if any of the three
required values is falsy, raise `RuntimeError` (the process fails to start);
otherwise open the collection (`get_collection`, modelled as the outcome of
the external call) and, if that raises, re-raise a `RuntimeError` naming the
collection.  There is no retry; success yields the live handle (`Unit`). -/
def module_init (env : Env) (get_collection : Except String Unit) : Except String Unit :=
  if !truthy env.perplexity_api_key || !truthy env.chroma_cloud_api_key
      || !truthy env.chroma_cloud_tenant then
    Except.error "❌ One or more required API keys/tenant missing in environment variables."
  else
    match get_collection with
    | Except.error e =>
        Except.error ("❌ Failed to access ChromaDB collection \x27Kinematics\x27: " ++ e)
    | Except.ok _ => Except.ok ()

/-! Concrete service behaviors used by witnesses and counterexamples. -/

/-- A generation endpoint that always succeeds with status 200. -/
def postOK : String → Except String HttpResponse :=
  fun _ => Except.ok ⟨200, "", "generated answer"⟩

/-- A retrieval service returning the two documents of the spec scenario. -/
def oracleAB : Oracle := ⟨fun _ _ => Except.ok ⟨some [["Doc A", "Doc B"]]⟩, postOK⟩

/-- A retrieval service returning a single whitespace-only document. -/
def oracleWS : Oracle := ⟨fun _ _ => Except.ok ⟨some [["   "]]⟩, postOK⟩

/-- A retrieval service returning zero documents. -/
def oracleEmpty : Oracle := ⟨fun _ _ => Except.ok ⟨some [[]]⟩, postOK⟩

/-- A retrieval service that raises. -/
def oracleFail : Oracle := ⟨fun _ _ => Except.error "boom", postOK⟩

/-- A retrieval service with one document, paired with a generation endpoint
answering 502 with body "Bad Gateway". -/
def oracle502 : Oracle :=
  ⟨fun _ _ => Except.ok ⟨some [["Doc A"]]⟩, fun _ => Except.ok ⟨502, "Bad Gateway", ""⟩⟩

/-- A bare collection-query behavior returning zero documents. -/
def collEmpty : String → Int → Except String ChromaResult :=
  fun _ _ => Except.ok ⟨some [[]]⟩

/-- A bare collection-query behavior returning exactly one document. -/
def collSingle : String → Int → Except String ChromaResult :=
  fun _ _ => Except.ok ⟨some [["only document"]]⟩

/-- Helper: on every run, the handler calls the retrieval wrapper exactly
once, with the request's own query and n_results, whatever the oracles do. -/
theorem retrievalCalls_eq (oracle : Oracle) (req : QueryRequest) :
    (query_jee oracle req).2.retrievalCalls = [(req.query, req.n_results)] := by
  unfold query_jee
  cases hq : query_chroma_collection oracle.collQuery req.query req.n_results with
  | error e => rfl
  | ok ctx =>
    by_cases hws : (strip ctx).isEmpty
    · simp [hws]
    · simp [hws]
      cases hp : call_perplexity_api oracle.post req.query ctx with
      | error e => rfl
      | ok t => rfl

/-- C1 counterexample: the claim fails on the code in two ways.  At the
spec scenario (query "What is projectile motion?", retrieval `["Doc A",
"Doc B"]`) the context actually passed to the generation wrapper is
`"Doc A\n\n---\n\nDoc B"`, not the claimed `"Doc A\n\n---\n\n Doc B"`
(no space follows the separator).  And when retrieval yields one
whitespace-only document, the generation client is never invoked even though
retrieval yielded at least one document, because the handler takes the
empty-context branch. -/
theorem c1_counterexample :
    (query_jee oracleAB ⟨"What is projectile motion?", 3⟩).2.generationCalls
      = [("What is projectile motion?", "Doc A\n\n---\n\nDoc B")]
    ∧ "Doc A\n\n---\n\nDoc B" ≠ "Doc A\n\n---\n\n Doc B"
    ∧ (query_jee oracleWS ⟨"q", 3⟩).2.generationCalls = [] :=
  ⟨by decide, by decide, by decide⟩

/-- C1 (amended): whenever the collection query returns at least one
document and the joined context is not whitespace-only, the generation
wrapper is invoked exactly once, with the original query text and with the
context equal to the documents joined in order by `"\n\n---\n\n"` (with no
extra space around the separator). -/
theorem c1_generation_called_once (oracle : Oracle) (q : String) (n : Int)
    (res : ChromaResult) (docs : List String)
    (hq : oracle.collQuery q n = Except.ok res)
    (hd : index0 (res.documents.getD [[]]) = Except.ok docs)
    (hne : docs ≠ [])
    (hws : ¬ (strip (String.intercalate SEP docs)).isEmpty) :
    (query_jee oracle ⟨q, n⟩).2.generationCalls
      = [(q, String.intercalate SEP docs)] := by
  have hctx : query_chroma_collection oracle.collQuery q n
      = Except.ok (String.intercalate SEP docs) := by
    simp [query_chroma_collection, hq, hd, List.isEmpty_eq_true, hne]
  unfold query_jee
  simp only [hctx]
  simp only [hws, if_neg]
  cases hp : call_perplexity_api oracle.post q (String.intercalate SEP docs) with
  | error e => rfl
  | ok t => rfl

/-- C1 witness: the amended theorem applied at the spec scenario. -/
theorem c1_generation_called_once_witness :
    oracleAB.collQuery "What is projectile motion?" 3
      = Except.ok ⟨some [["Doc A", "Doc B"]]⟩
    ∧ (query_jee oracleAB ⟨"What is projectile motion?", 3⟩).2.generationCalls
      = [("What is projectile motion?", String.intercalate SEP ["Doc A", "Doc B"])] :=
  ⟨rfl, c1_generation_called_once oracleAB "What is projectile motion?" 3
    ⟨some [["Doc A", "Doc B"]]⟩ ["Doc A", "Doc B"] rfl rfl (by decide) (by decide)⟩

/-- C2: whenever the retrieval step returns empty or whitespace-only context,
the handler returns HTTP 200 with `thinking` empty and the exact canned
answer, and the generation wrapper is never invoked (its call trace is
empty). -/
theorem c2_empty_context_canned_response (oracle : Oracle) (q : String) (n : Int)
    (ctx : String)
    (hret : query_chroma_collection oracle.collQuery q n = Except.ok ctx)
    (hws : (strip ctx).isEmpty) :
    query_jee oracle ⟨q, n⟩ =
      (HandlerOutcome.ok
         ⟨"", "Sorry, no relevant information found in the knowledge base for your query."⟩,
       ⟨[(q, n)], []⟩) := by
  unfold query_jee
  simp [hret, hws]

/-- C2 witness: the spec scenario, a query whose retrieval returns zero
documents. -/
theorem c2_empty_context_canned_response_witness :
    (query_chroma_collection oracleEmpty.collQuery "asdkjhasd" 3 = Except.ok ""
      ∧ (strip "").isEmpty)
    ∧ query_jee oracleEmpty ⟨"asdkjhasd", 3⟩ =
        (HandlerOutcome.ok
           ⟨"", "Sorry, no relevant information found in the knowledge base for your query."⟩,
         ⟨[("asdkjhasd", 3)], []⟩) :=
  ⟨⟨rfl, rfl⟩, c2_empty_context_canned_response oracleEmpty "asdkjhasd" 3 "" rfl rfl⟩

/-- C3: any exception raised by the retrieval call, or by the generation call
on the non-empty-context path, is caught by the handler and converted into
the single 500 outcome whose detail is "Internal server error: " followed by
the error description; `query_jee` is a total function, so the raw exception
never propagates out of the handler. -/
theorem c3_exceptions_caught_as_500 (oracle : Oracle) (req : QueryRequest) (e : String)
    (h : query_chroma_collection oracle.collQuery req.query req.n_results = Except.error e
        ∨ ∃ ctx,
            query_chroma_collection oracle.collQuery req.query req.n_results = Except.ok ctx
            ∧ ¬ (strip ctx).isEmpty
            ∧ call_perplexity_api oracle.post req.query ctx = Except.error e) :
    (query_jee oracle req).1
      = HandlerOutcome.httpError 500 ("Internal server error: " ++ e) := by
  unfold query_jee
  rcases h with h | ⟨ctx, h1, h2, h3⟩
  · simp [h]
  · simp [h1, h2, h3]

/-- C3 witness: a retrieval service that raises "boom". -/
theorem c3_exceptions_caught_as_500_witness :
    query_chroma_collection oracleFail.collQuery "q" 3 = Except.error "boom"
    ∧ (query_jee oracleFail ⟨"q", 3⟩).1
        = HandlerOutcome.httpError 500 ("Internal server error: " ++ "boom") :=
  ⟨rfl, c3_exceptions_caught_as_500 oracleFail ⟨"q", 3⟩ "boom" (Or.inl rfl)⟩

/-- C4: if any of the three required environment values is absent, or the
collection cannot be opened, module initialization raises (returns an error)
and the process never reaches the point of serving requests. -/
theorem c4_startup_failfast (env : Env) (gc : Except String Unit)
    (h : env.perplexity_api_key = none ∨ env.chroma_cloud_api_key = none
        ∨ env.chroma_cloud_tenant = none ∨ ∃ e, gc = Except.error e) :
    ∃ msg, module_init env gc = Except.error msg := by
  unfold module_init
  rcases h with h | h | h | ⟨e, he⟩
  · simp [h, truthy]
  · simp [h, truthy]
  · simp [h, truthy]
  · subst he
    by_cases hk : (!truthy env.perplexity_api_key || !truthy env.chroma_cloud_api_key
        || !truthy env.chroma_cloud_tenant) = true
    · simp [hk]
    · simp [hk]

/-- C4 witness: the completion-API key is missing, all else healthy. -/
theorem c4_startup_failfast_witness :
    (Env.mk none (some "k") (some "t")).perplexity_api_key = none
    ∧ ∃ msg, module_init ⟨none, some "k", some "t"⟩ (Except.ok ()) = Except.error msg :=
  ⟨rfl, c4_startup_failfast ⟨none, some "k", some "t"⟩ (Except.ok ()) (Or.inl rfl)⟩

/-- C5: a non-200 status from the completion endpoint makes
`call_perplexity_api` raise an error carrying the status code and the raw
body, and the handler turns it into a 500 whose detail contains both. -/
theorem c5_non_success_status_surfaced (oracle : Oracle) (req : QueryRequest)
    (ctx : String) (resp : HttpResponse)
    (hret : query_chroma_collection oracle.collQuery req.query req.n_results = Except.ok ctx)
    (hws : ¬ (strip ctx).isEmpty)
    (hpost : oracle.post (mkPrompt req.query ctx) = Except.ok resp)
    (hstatus : resp.status_code ≠ 200) :
    call_perplexity_api oracle.post req.query ctx
      = Except.error
          ("Perplexity API error: " ++ toString resp.status_code ++ " " ++ resp.text)
    ∧ (query_jee oracle req).1
      = HandlerOutcome.httpError 500
          ("Internal server error: "
            ++ ("Perplexity API error: " ++ toString resp.status_code ++ " " ++ resp.text)) := by
  have hcall : call_perplexity_api oracle.post req.query ctx
      = Except.error
          ("Perplexity API error: " ++ toString resp.status_code ++ " " ++ resp.text) := by
    unfold call_perplexity_api
    simp [hpost, hstatus]
  refine ⟨hcall, ?_⟩
  unfold query_jee
  simp [hret, hws, hcall]

/-- C5 witness: one retrieved document, completion endpoint answering 502
with body "Bad Gateway". -/
theorem c5_non_success_status_surfaced_witness :
    query_chroma_collection oracle502.collQuery "q" 3 = Except.ok "Doc A"
    ∧ call_perplexity_api oracle502.post "q" "Doc A"
        = Except.error ("Perplexity API error: " ++ toString (502 : Nat) ++ " " ++ "Bad Gateway")
    ∧ (query_jee oracle502 ⟨"q", 3⟩).1
        = HandlerOutcome.httpError 500
            ("Internal server error: "
              ++ ("Perplexity API error: " ++ toString (502 : Nat) ++ " " ++ "Bad Gateway")) :=
  ⟨rfl,
   (c5_non_success_status_surfaced oracle502 ⟨"q", 3⟩ "Doc A" ⟨502, "Bad Gateway", ""⟩
      rfl (by decide) rfl (by decide)).1,
   (c5_non_success_status_surfaced oracle502 ⟨"q", 3⟩ "Doc A" ⟨502, "Bad Gateway", ""⟩
      rfl (by decide) rfl (by decide)).2⟩

/-- C6: a payload that omits `n_results` parses to a `QueryRequest` with
`n_results = 3`, and the handler then calls the retrieval wrapper exactly
once with `n_results = 3`. -/
theorem c6_default_n_results (oracle : Oracle) (q : String) :
    parseQueryRequest ⟨some q, none⟩ = Except.ok ⟨q, 3⟩
    ∧ (query_jee oracle ⟨q, 3⟩).2.retrievalCalls = [(q, 3)] :=
  ⟨rfl, retrievalCalls_eq oracle ⟨q, 3⟩⟩

/-- C7 counterexample: the declared model constrains `n_results` only to be
an integer, so a payload with `n_results = 0` passes validation and the
retrieval wrapper is called with `0` — the claimed rejection of non-positive
values before any remote call does not happen. -/
theorem c7_counterexample :
    parseQueryRequest ⟨some "q", some 0⟩ = Except.ok ⟨"q", 0⟩
    ∧ (query_jee oracleEmpty ⟨"q", 0⟩).2.retrievalCalls = [("q", 0)]
    ∧ ¬ (0 : Int) > 0 :=
  ⟨rfl, rfl, by decide⟩

/-- C7 (amended): validation requires only that `n_results` be an integer;
whatever integer the payload carries — positive, zero, or negative — is
accepted and forwarded unchanged to the retrieval client. -/
theorem c7_n_results_forwarded_unchanged (oracle : Oracle) (q : String) (n : Int) :
    parseQueryRequest ⟨some q, some n⟩ = Except.ok ⟨q, n⟩
    ∧ (query_jee oracle ⟨q, n⟩).2.retrievalCalls = [(q, n)] :=
  ⟨rfl, retrievalCalls_eq oracle ⟨q, n⟩⟩

/-- C8: when the retrieval service returns zero matching documents,
`query_chroma_collection` returns the empty string. -/
theorem c8_no_documents_empty_string
    (collQuery : String → Int → Except String ChromaResult)
    (q : String) (n : Int) (res : ChromaResult)
    (hq : collQuery q n = Except.ok res)
    (hd : index0 (res.documents.getD [[]]) = Except.ok []) :
    query_chroma_collection collQuery q n = Except.ok "" := by
  unfold query_chroma_collection
  simp [hq, hd]

/-- C8 witness: a collection query with an empty first document list. -/
theorem c8_no_documents_empty_string_witness :
    collEmpty "q" 3 = Except.ok ⟨some [[]]⟩
    ∧ query_chroma_collection collEmpty "q" 3 = Except.ok "" :=
  ⟨rfl, c8_no_documents_empty_string collEmpty "q" 3 ⟨some [[]]⟩ rfl rfl⟩

/-- C9: every 200 response produced by the handler has `thinking` equal to
the empty string, in both the empty-context branch and the generation
branch. -/
theorem c9_thinking_always_empty (oracle : Oracle) (req : QueryRequest)
    (resp : QueryResponse)
    (h : (query_jee oracle req).1 = HandlerOutcome.ok resp) :
    resp.thinking = "" := by
  unfold query_jee at h
  cases hq : query_chroma_collection oracle.collQuery req.query req.n_results with
  | error e => rw [hq] at h; simp at h
  | ok ctx =>
    rw [hq] at h
    by_cases hws : (strip ctx).isEmpty
    · simp [hws] at h
      rw [← h]
    · simp only [hws] at h
      cases hp : call_perplexity_api oracle.post req.query ctx with
      | error e => rw [hp] at h; simp at h
      | ok t =>
        rw [hp] at h
        simp at h
        rw [← h]

/-- C9 witness: the empty-context branch at a concrete request. -/
theorem c9_thinking_always_empty_witness :
    (query_jee oracleEmpty ⟨"q", 3⟩).1
        = HandlerOutcome.ok
            ⟨"", "Sorry, no relevant information found in the knowledge base for your query."⟩
    ∧ (QueryResponse.mk ""
        "Sorry, no relevant information found in the knowledge base for your query.").thinking
        = "" :=
  ⟨rfl,
   c9_thinking_always_empty oracleEmpty ⟨"q", 3⟩
     ⟨"", "Sorry, no relevant information found in the knowledge base for your query."⟩ rfl⟩

/-- C10: when the retrieval service returns exactly one document,
`query_chroma_collection` returns that document's text unchanged — joining a
one-element list with the separator is the identity. -/
theorem c10_single_document_identity
    (collQuery : String → Int → Except String ChromaResult)
    (q : String) (n : Int) (res : ChromaResult) (d : String)
    (hq : collQuery q n = Except.ok res)
    (hd : index0 (res.documents.getD [[]]) = Except.ok [d]) :
    query_chroma_collection collQuery q n = Except.ok d := by
  unfold query_chroma_collection
  simp [hq, hd, String.intercalate, String.intercalate.go]

/-- C10 witness: a collection query returning the single document
"only document". -/
theorem c10_single_document_identity_witness :
    collSingle "q" 3 = Except.ok ⟨some [["only document"]]⟩
    ∧ query_chroma_collection collSingle "q" 3 = Except.ok "only document" :=
  ⟨rfl,
   c10_single_document_identity collSingle "q" 3 ⟨some [["only document"]]⟩
     "only document" rfl rfl⟩
